import Mathlib

/-!
Verification development for the MoneyPrinterTurbo orchestration core.

This file gives a shallow embedding of the two subsystems under scrutiny:

* `app/services/state.py` — the task state store with its in-process backend
  (`MemoryState`) and its persisted backend (`RedisState`), including the
  text encoding (`str(value)`) and speculative decoding
  (`_convert_to_original_type`, i.e. `ast.literal_eval` then `str.isdigit`)
  that the persisted backend applies to every field value;
* `app/services/llm.py` — the generation orchestrator: the transport helper
  `_generate_response` (configuration validation followed by a bounded retry
  loop with a fixed delay) and the two public operations `generate_script`
  and `generate_terms` with their semantic retry loops and response cleaning.

Python values that can appear as task-record fields are modelled by `PyVal`;
Python dicts are modelled as insertion-ordered association lists, matching
the iteration order guarantees of CPython dicts.  Timestamps are modelled by
an abstract monotone clock: every `datetime.now().isoformat()` call in the
source consumes the next value of a caller-supplied sequence
`times : Nat → Nat` (ISO-8601 strings of non-decreasing instants compare in
the same order as the instants, so `Nat` comparison is a faithful model of
comparing the stored strings).
-/

/-- Model of a Python value that can be stored in a task record: `None`,
booleans, integers, strings, lists of strings, and (for the in-process
backend only) the ISO-format timestamp string produced for instant `t` by
`datetime.now().isoformat()`.  Floats, dicts, tuples and heterogeneous
lists never arise in the claims under study (the spec's round-trip
obligation covers exactly integers, strings and sequences of strings), so
list elements are restricted to strings. -/
inductive PyVal where
  | none
  | bool (b : Bool)
  | int (n : Int)
  | str (s : String)
  | list (l : List String)
  | time (t : Nat)
deriving DecidableEq

/-- Lookup in an insertion-ordered association list (Python `d.get(k)`). -/
def dget {α : Type} (d : List (String × α)) (k : String) : Option α :=
  match d with
  | [] => Option.none
  | (k2, v) :: rest => if k2 = k then Option.some v else dget rest k

/-- Update in an insertion-ordered association list (Python `d[k] = v`):
an existing key keeps its position, a new key is appended at the end. -/
def dset {α : Type} (d : List (String × α)) (k : String) (v : α) :
    List (String × α) :=
  match d with
  | [] => [(k, v)]
  | (k2, v2) :: rest => if k2 = k then (k2, v) :: rest else (k2, v2) :: dset rest k v

/-- Removal from an association list (Python `del d[k]`). -/
def ddel {α : Type} (d : List (String × α)) (k : String) : List (String × α) :=
  match d with
  | [] => []
  | (k2, v2) :: rest => if k2 = k then rest else (k2, v2) :: ddel rest k

/-- Modelled from the spec: the task-state constants of `app.models.const`,
a module of this repository that is not under `src/` (only `state.py`
imports it).  The spec fixes the enum `{PENDING, PROCESSING, COMPLETED,
FAILED}` with "ordinal encoding allowed"; the concrete ordinals below are
arbitrary and no claim depends on them. -/
def TASK_STATE_PENDING : Int := 0

/-- Modelled from the spec: see `TASK_STATE_PENDING`. -/
def TASK_STATE_PROCESSING : Int := 1

/-- Modelled from the spec: see `TASK_STATE_PENDING`. -/
def TASK_STATE_COMPLETED : Int := 2

/-- Modelled from the spec: see `TASK_STATE_PENDING`. -/
def TASK_STATE_FAILED : Int := 3

/-- A task record: an insertion-ordered mapping from field names to values,
exactly as the Python dicts held by `MemoryState._tasks`. -/
abbrev TaskRec := List (String × PyVal)

/-- The in-process backend `MemoryState`: the `_tasks` dict plus the index of
the next unconsumed instant of the ambient clock (each `datetime.now()` call
in the source consumes one instant). -/
structure MemStore where
  tasks : List (String × TaskRec)
  clk : Nat
deriving DecidableEq

/-- The empty `MemoryState` as built by `MemoryState.__init__`. -/
def memEmpty : MemStore := ⟨[], 0⟩

/-- Embedding of `MemoryState.update_task` (state.py lines 39-77).
Source behaviour, in order: `progress = int(progress)` (identity on the
`Int` model); clamp only the top (`if progress > 100: progress = 100` — no
lower clamp); if the id is unseen, insert a fresh record whose `created_at`
and `updated_at` are two successive `datetime.now()` calls; merge `kwargs`
into the record field by field; finally refresh `updated_at` with one more
`datetime.now()` call.  The named `state` and `progress` arguments are used
only when building the fresh record — an existing record is touched only
through `kwargs`.  The logging statements at the end of the function are a
side channel (in this file of the source they would in fact raise
`NameError` because `logger` is never imported, but they run after every
mutation and are reached only when `kwargs` binds `state` or a truthy
`error`; no claim exercises them, so they are not modelled). -/
def memUpdateTask (times : Nat → Nat) (st : MemStore) (taskId : String)
    (state : Int) (progress : Int) (kwargs : List (String × PyVal)) : MemStore :=
  let p : Int := if progress > 100 then 100 else progress
  let fresh : Bool := (dget st.tasks taskId).isNone
  let tasks0 :=
    if fresh then
      st.tasks ++ [(taskId,
        [("task_id", PyVal.str taskId),
         ("state", PyVal.int state),
         ("progress", PyVal.int p),
         ("error", PyVal.none),
         ("created_at", PyVal.time (times st.clk)),
         ("updated_at", PyVal.time (times (st.clk + 1)))])]
    else st.tasks
  let c0 := if fresh then st.clk + 2 else st.clk
  let rec0 := (dget tasks0 taskId).getD []
  let rec1 := kwargs.foldl (fun r kv => dset r kv.1 kv.2) rec0
  let rec2 := dset rec1 "updated_at" (PyVal.time (times c0))
  ⟨dset tasks0 taskId rec2, c0 + 1⟩

/-- Embedding of `MemoryState.get_task`: `self._tasks.get(task_id, None)`. -/
def memGetTask (st : MemStore) (taskId : String) : Option TaskRec :=
  dget st.tasks taskId

/-- Embedding of `MemoryState.delete_task`: delete the key if present. -/
def memDeleteTask (st : MemStore) (taskId : String) : MemStore :=
  ⟨ddel st.tasks taskId, st.clk⟩

/-- Decimal digit character for `d < 10` (used by the model of Python
`str(int)`). -/
def digitChar : Nat → Char
  | 0 => '0' | 1 => '1' | 2 => '2' | 3 => '3' | 4 => '4'
  | 5 => '5' | 6 => '6' | 7 => '7' | 8 => '8' | _ => '9'

/-- Fuelled helper for `natDigits`, structurally recursive so that the
kernel can evaluate it; with `fuel ≥ n` the fuel never runs out. -/
def natDigitsFuel : Nat → Nat → List Char
  | 0, n => [digitChar n]
  | fuel + 1, n =>
    if n < 10 then [digitChar n]
    else natDigitsFuel fuel (n / 10) ++ [digitChar (n % 10)]

/-- Decimal digit string of a natural number, as Python `str` renders it
(most significant digit first, `"0"` for zero). -/
def natDigits (n : Nat) : List Char := natDigitsFuel n n

/-- Python `str` of an integer: a leading minus sign for negatives. -/
def intChars (n : Int) : List Char :=
  if n < 0 then '-' :: natDigits (-n).toNat else natDigits n.toNat

/-- The single-quote character, written by code point to keep the source
free of quote-escape literals. -/
def squote : Char := Char.ofNat 39

/-- The double-quote character, written by code point. -/
def dquote : Char := Char.ofNat 34

/-- Python `repr` of a `PyVal`, as used by `str(value)` on non-string
values (`str(list)` reprs each element, quoting contained strings).  The
model quotes strings with single quotes and performs no escaping, which
matches CPython exactly for strings that contain no single quote, no
backslash and no unprintable character; every string a claim mentions is of
that shape.  `PyVal.time t` renders as an opaque ISO-format placeholder
(never exercised: the persisted backend stores no timestamps). -/
def pyRepr : PyVal → List Char
  | PyVal.none => "None".toList
  | PyVal.bool true => "True".toList
  | PyVal.bool false => "False".toList
  | PyVal.int n => intChars n
  | PyVal.str s => squote :: s.toList ++ [squote]
  | PyVal.list l => '[' :: reprStrElems l ++ [']']
  | PyVal.time t => "iso:".toList ++ natDigits t
where
  /-- `", "`-separated reprs of the element strings of a Python list. -/
  reprStrElems : List String → List Char
    | [] => []
    | [s] => squote :: s.toList ++ [squote]
    | s :: rest => squote :: s.toList ++ [squote] ++ [',', ' '] ++ reprStrElems rest

/-- Python `str(value)` as applied by `RedisState.update_task` before
`hset`: the identity on strings, `repr` on everything else. -/
def pyStr : PyVal → String
  | PyVal.str s => s
  | v => (pyRepr v).asString

/-- Scan a run of decimal digits (longest prefix), returning it and the
rest of the input. -/
def scanDigits : List Char → List Char × List Char
  | [] => ([], [])
  | c :: cs =>
    if c.isDigit then
      let (ds, rest) := scanDigits cs
      (c :: ds, rest)
    else ([], c :: cs)

/-- Numeric value of a digit run (most significant first). -/
def digitsToNat (ds : List Char) : Nat :=
  ds.foldl (fun a c => a * 10 + (c.toNat - 48)) 0

/-- Scan a quoted-string body up to the closing quote `q`, returning the
body and the input after the quote; fails when the quote never closes. -/
def scanString (q : Char) : List Char → Option (List Char × List Char)
  | [] => Option.none
  | c :: cs =>
    if c = q then Option.some ([], cs)
    else (scanString q cs).map (fun p => (c :: p.1, p.2))

/-- Skip ASCII space characters. -/
def skipWs : List Char → List Char
  | [] => []
  | c :: cs => if c = ' ' then skipWs cs else c :: cs

/-- Parse one scalar Python literal (string, signed integer, `None`,
`True`, `False`), returning the value and the remaining input.  This is
the scalar fragment of `ast.literal_eval`; together with `parseElems` and
`parseLitChars` below it models the source's speculative decode on the
shapes the spec's round-trip obligation names (floats, tuples, dicts and
nested lists are outside the model and parse as failures). -/
def parseScalar : List Char → Option (PyVal × List Char)
  | [] => Option.none
  | c :: cs =>
    if c = squote ∨ c = dquote then
      match scanString c cs with
      | Option.some (content, rest) => Option.some (PyVal.str content.asString, rest)
      | Option.none => Option.none
    else if c = '-' then
      let (ds, rest) := scanDigits cs
      if ds = [] then Option.none
      else Option.some (PyVal.int (-(Int.ofNat (digitsToNat ds))), rest)
    else if c = '+' then
      let (ds, rest) := scanDigits cs
      if ds = [] then Option.none
      else Option.some (PyVal.int (Int.ofNat (digitsToNat ds)), rest)
    else if c.isDigit then
      let (ds, rest) := scanDigits (c :: cs)
      Option.some (PyVal.int (Int.ofNat (digitsToNat ds)), rest)
    else if (c :: cs).take 4 = "None".toList then Option.some (PyVal.none, (c :: cs).drop 4)
    else if (c :: cs).take 4 = "True".toList then Option.some (PyVal.bool true, (c :: cs).drop 4)
    else if (c :: cs).take 5 = "False".toList then Option.some (PyVal.bool false, (c :: cs).drop 5)
    else Option.none

/-- Parse the comma-separated elements of a non-empty Python list literal
up to and including the closing bracket.  Only string elements are kept
(see `PyVal`); a non-string element makes the parse fail.  `fuel` bounds
the recursion (one unit per element suffices). -/
def parseElems : Nat → List Char → Option (List String × List Char)
  | 0, _ => Option.none
  | fuel + 1, cs =>
    match parseScalar cs with
    | Option.some (PyVal.str s, rest) =>
      match skipWs rest with
      | [] => Option.none
      | d :: rest2 =>
        if d = ']' then Option.some ([s], rest2)
        else if d = ',' then
          match parseElems fuel (skipWs rest2) with
          | Option.some (ss, rest3) => Option.some (s :: ss, rest3)
          | Option.none => Option.none
        else Option.none
    | _ => Option.none

/-- The part of a list literal after the opening bracket and any spaces:
either an immediate closing bracket (the empty list) or the
comma-separated elements. -/
def parseListBody : List Char → Option PyVal
  | [] => Option.none
  | d :: rest2 =>
    if d = ']' then
      if skipWs rest2 = [] then Option.some (PyVal.list []) else Option.none
    else
      match parseElems ((d :: rest2).length + 1) (d :: rest2) with
      | Option.some (ss, rest3) =>
        if skipWs rest3 = [] then Option.some (PyVal.list ss) else Option.none
      | Option.none => Option.none

/-- Dispatch on the first non-space character: a bracket starts a list,
anything else must be a complete scalar followed only by spaces. -/
def parseAfterWs : List Char → Option PyVal
  | [] => Option.none
  | c :: rest =>
    if c = '[' then parseListBody (skipWs rest)
    else
      match parseScalar (c :: rest) with
      | Option.some (v, rest2) => if skipWs rest2 = [] then Option.some v else Option.none
      | Option.none => Option.none

/-- Model of `ast.literal_eval` on a whole input: a scalar or a list of
strings, with surrounding spaces tolerated; `Option.none` models the
`ValueError`/`SyntaxError` that `_convert_to_original_type` catches. -/
def parseLitChars (cs : List Char) : Option PyVal :=
  parseAfterWs (skipWs cs)

/-- Embedding of `RedisState._convert_to_original_type` (state.py lines
162-179): try `ast.literal_eval`; on failure, decode all-digit text as an
integer; otherwise keep the text. -/
def convertToOriginalType (s : String) : PyVal :=
  match parseLitChars s.toList with
  | Option.some v => v
  | Option.none =>
    if s.toList ≠ [] ∧ s.toList.all Char.isDigit then
      PyVal.int (Int.ofNat (digitsToNat s.toList))
    else PyVal.str s

/-- A Redis hash: field name to stored text, in field-creation order. -/
abbrev RHash := List (String × String)

/-- The persisted backend `RedisState`: one hash per task key. -/
abbrev RedisStore := List (String × RHash)

/-- The empty Redis database. -/
def redisEmpty : RedisStore := []

/-- Redis `HSET key field value`: creates the hash when absent, otherwise
sets one field, leaving the other fields of the hash untouched. -/
def hset (db : RedisStore) (key field value : String) : RedisStore :=
  match dget db key with
  | Option.some h => dset db key (dset h field value)
  | Option.none => db ++ [(key, [(field, value)])]

/-- Embedding of `RedisState.update_task` (state.py lines 127-146): clamp
`progress` only above 100, build the Python dict
`{"task_id": ..., "state": ..., "progress": ..., **kwargs}` (later kwargs
override earlier keys in place, new keys append), then issue one
field-level `hset` per entry with the value rendered by `str(value)`. -/
def redisUpdateTask (db : RedisStore) (taskId : String) (state : Int)
    (progress : Int) (kwargs : List (String × PyVal)) : RedisStore :=
  let p : Int := if progress > 100 then 100 else progress
  let base : List (String × PyVal) :=
    [("task_id", PyVal.str taskId),
     ("state", PyVal.int state),
     ("progress", PyVal.int p)]
  let fields := kwargs.foldl (fun d kv => dset d kv.1 kv.2) base
  fields.foldl (fun acc kv => hset acc taskId kv.1 (pyStr kv.2)) db

/-- Embedding of `RedisState.get_task`: `hgetall` (an absent key yields the
empty, falsy dict, hence `None`), then decode every field value with
`_convert_to_original_type`. -/
def redisGetTask (db : RedisStore) (taskId : String) : Option TaskRec :=
  match dget db taskId with
  | Option.none => Option.none
  | Option.some h =>
    if h = [] then Option.none
    else Option.some (h.map (fun kv => (kv.1, convertToOriginalType kv.2)))

/-- Embedding of `RedisState.delete_task`: `DEL key`. -/
def redisDeleteTask (db : RedisStore) (taskId : String) : RedisStore :=
  ddel db taskId

/-- Boolean test that `hay` starts with `pat`. -/
def listStartsWith : List Char → List Char → Bool
  | _, [] => true
  | [], _ :: _ => false
  | a :: as, b :: bs => a = b && listStartsWith as bs

/-- Boolean test that `pat` occurs as a contiguous substring of `hay`;
this is Python's `pat in hay` on strings. -/
def listContainsSub (hay pat : List Char) : Bool :=
  match hay with
  | [] => pat.isEmpty
  | _ :: rest => listStartsWith hay pat || listContainsSub rest pat

/-- Python `pat in s` for strings. -/
def pyInStr (pat s : String) : Bool := listContainsSub s.toList pat.toList

/-- Fuelled splitter on the non-empty separator `p :: ps`, leftmost
occurrence first, like Python `s.split(sep)`; `cur` accumulates the
current piece reversed.  Structural recursion on `fuel` so the kernel can
evaluate it; one unit of fuel per input character suffices. -/
def splitOnSubFuel (p : Char) (ps : List Char) : Nat → List Char → List Char → List (List Char)
  | 0, rest, cur => [cur.reverse ++ rest]
  | _fuel + 1, [], cur => [cur.reverse]
  | fuel + 1, x :: xs, cur =>
    if listStartsWith (x :: xs) (p :: ps) then
      cur.reverse :: splitOnSubFuel p ps fuel (List.drop ps.length xs) []
    else splitOnSubFuel p ps fuel xs (x :: cur)

/-- Python `s.split(sep)` for the non-empty separator `p :: ps`. -/
def splitOnSub (p : Char) (ps : List Char) (cs : List Char) : List (List Char) :=
  splitOnSubFuel p ps cs.length cs []

/-- The suffix of `cs` strictly after the last occurrence of `c` (empty
when `c` does not occur). -/
def dropThroughLast (c : Char) : List Char → List Char
  | [] => []
  | x :: xs =>
    if xs.contains c then dropThroughLast c xs
    else if x = c then xs
    else []

/-- One line's worth of `re.sub(r"\[.*\]", "", line)` (and likewise for
parentheses): `.` does not match a newline and `.*` is greedy, so on each
line the regex removes at most one span, running from the first `o` that
has some `c` after it on the line through the last `c` of the line; after
that span no `c` remains, so no further match exists on the line. -/
def subDelimLine (o c : Char) : List Char → List Char
  | [] => []
  | x :: xs =>
    if x = o ∧ xs.contains c then dropThroughLast c xs
    else x :: subDelimLine o c xs

/-- Embedding of the nested `format_response` of `generate_script`
(llm.py lines 167-184): remove every `*` and `#`, apply
`re.sub(r"\[.*\]", "")` then `re.sub(r"\(.*\)", "")` (line-wise, see
`subDelimLine`), then split into paragraphs on blank lines and re-join
with the same separator (Python `sep.join(s.split(sep))` is the identity,
reproduced faithfully here). -/
def formatResponse (response : String) : String :=
  let cs := (response.toList.filter (fun ch => ch ≠ '*')).filter (fun ch => ch ≠ '#')
  let cs1 := List.intercalate ['\n']
    ((splitOnSub '\n' [] cs).map (subDelimLine '[' ']'))
  let cs2 := List.intercalate ['\n']
    ((splitOnSub '\n' [] cs1).map (subDelimLine '(' ')'))
  let paras := splitOnSub '\n' ['\n'] cs2
  (List.intercalate ['\n', '\n'] paras).asString

/-- Python `str.strip()`: drop leading and trailing whitespace. -/
def pyStrip (s : String) : String :=
  (((s.toList.dropWhile isPyWs).reverse.dropWhile isPyWs).reverse).asString
where
  /-- Whitespace for `strip` (space, newline, tab, carriage return). -/
  isPyWs (c : Char) : Bool := c = ' ' ∨ c = '\n' ∨ c = '\t' ∨ c = '\r'

/-- The provider configuration consumed by `_generate_response`:
the keys of `config.LLM_PROVIDERS` plus the two fields whose presence the
function validates (`openai.api_key`, `pollinations.base_url`). -/
structure LLMConfig where
  providers : List String
  openaiApiKey : String
  pollinationsBaseUrl : String
deriving DecidableEq

/-- The configuration built by `Config.__init__` when no `config.toml`
overrides it (config.py lines 9-22): all three providers present, the
OpenAI key empty, the Pollinations base URL set. -/
def defaultLLMConfig : LLMConfig :=
  ⟨["openai", "g4f", "pollinations"], "", "https://text.pollinations.ai/openai"⟩

/-- The exceptions that can arise in the orchestrator, tagged by kind:
`config` for the `ValueError`s raised by the validation prologue of
`_generate_response`, `exhausted` for the terminal `RuntimeError` of its
retry loop, `typeErr` for the `TypeError` a malformed Python call raises
before the callee body runs, and `validation` for the quota-marker
`ValueError` raised inside `generate_script`. -/
inductive GenError where
  | config (msg : String)
  | exhausted (msg : String)
  | typeErr (msg : String)
  | validation (msg : String)
deriving DecidableEq

/-- Observable trace of one `_generate_response` execution: how many loop
iterations ran (each is one provider attempt) and the sequence of
`time.sleep` delays performed, in order. -/
structure TransportTrace where
  attempts : Nat
  sleeps : List Nat
deriving DecidableEq

/-- One iteration body of the transport retry loop (llm.py lines 58-76):
dispatch to the per-provider helper — whose outcome is the abstract
`behavior` — then treat an empty response as a `ValueError`.  A provider
key outside the three known ones raises `ValueError` without consulting
the adapter. -/
def oneAttempt (behavior : Nat → Except String String) (provider : String)
    (i : Nat) : Except String String :=
  if provider = "openai" ∨ provider = "g4f" ∨ provider = "pollinations" then
    match behavior i with
    | Except.ok r => if r = "" then Except.error "Empty response from LLM" else Except.ok r
    | Except.error m => Except.error m
  else Except.error ("Unsupported LLM provider: " ++ provider)

/-- The transport retry loop of `_generate_response` (llm.py lines 58-85):
`fuel` counts the remaining iterations of `for attempt in range(max_retries)`
and `i` is the current attempt index.  On failure the code sleeps
`retry_delay` seconds when further attempts remain, and otherwise raises
`RuntimeError(f"Failed to generate response after {max_retries} attempts:
{e}")`.  When `max_retries = 0` the Python loop body never runs and the
function falls off the end returning `None`, modelled by `Except.ok
Option.none` (unreachable at the default `max_retries = 3`). -/
def transportGo (behavior : Nat → Except String String) (provider : String)
    (maxRetries retryDelay : Nat) :
    Nat → Nat → Except GenError (Option String) × TransportTrace
  | _, 0 => (Except.ok Option.none, ⟨0, []⟩)
  | i, fuel + 1 =>
    match oneAttempt behavior provider i with
    | Except.ok r => (Except.ok (Option.some r), ⟨1, []⟩)
    | Except.error m =>
      if fuel = 0 then
        (Except.error (GenError.exhausted
          ("Failed to generate response after " ++ toString maxRetries ++
            " attempts: " ++ m)), ⟨1, []⟩)
      else
        let (res, tr) := transportGo behavior provider maxRetries retryDelay (i + 1) fuel
        (res, ⟨tr.attempts + 1, retryDelay :: tr.sleeps⟩)

/-- Embedding of `_generate_response` (llm.py lines 18-85) as invoked with
explicit `provider` and `model` arguments: validation prologue first — an
unknown provider, a missing OpenAI `api_key`, a missing model for
OpenAI/G4F, or a missing Pollinations `base_url` each raise `ValueError`
before the retry loop, so a configuration failure consumes zero provider
attempts — then the transport retry loop `transportGo`. -/
def genResponseFull (cfg : LLMConfig) (provider model : String)
    (behavior : Nat → Except String String) (maxRetries retryDelay : Nat) :
    Except GenError (Option String) × TransportTrace :=
  if ¬ cfg.providers.contains provider then
    (Except.error (GenError.config ("Invalid LLM provider: " ++ provider)), ⟨0, []⟩)
  else if provider = "openai" ∧ cfg.openaiApiKey = "" then
    (Except.error (GenError.config "OpenAI API key not configured"), ⟨0, []⟩)
  else if provider = "openai" ∧ model = "" then
    (Except.error (GenError.config "OpenAI model not specified"), ⟨0, []⟩)
  else if provider = "g4f" ∧ model = "" then
    (Except.error (GenError.config "G4F model not specified"), ⟨0, []⟩)
  else if provider = "pollinations" ∧ cfg.pollinationsBaseUrl = "" then
    (Except.error (GenError.config "Pollinations base URL not configured"), ⟨0, []⟩)
  else transportGo behavior provider maxRetries retryDelay 0 maxRetries

/-- The module constant `_max_retries = 5` bounding both semantic retry
loops. -/
def maxRetriesLLM : Nat := 5

/-- The provider-specific quota-exhaustion marker string checked by
`generate_script` (llm.py line 195). -/
def quotaMarker : String := "当日额度已消耗完"

/-- The outcome of the call `_generate_response(prompt=prompt)` on line 188
of llm.py.  `_generate_response` declares `provider` and `model` as
required positional parameters with no defaults, and the call supplies
neither, so CPython raises `TypeError` at the call site — before the
callee body (configuration validation included) can run.  Every semantic
attempt of `generate_script` therefore fails with this error, whatever the
provider would have answered. -/
def scriptCallResult : Except GenError String :=
  Except.error (GenError.typeErr
    "_generate_response missing 2 required positional arguments: provider and model")

/-- Observable trace of one `generate_script` execution: the number of
semantic-layer attempts performed and the exception caught by each failed
attempt, in order. -/
structure ScriptTrace where
  attempts : Nat
  errors : List GenError
deriving DecidableEq

/-- The semantic retry loop of `generate_script` (llm.py lines 186-204),
with `att i` the outcome of the transport call of attempt `i`, `fs` the
accumulated `final_script` and `errs` the exceptions caught so far.  On a
successful call the response (when non-empty) is cleaned into
`final_script`; a cleaned script containing the quota marker raises
`ValueError(final_script)` — caught by the same loop, and note that
`final_script` keeps the assigned value; a non-empty clean script breaks
out of the loop. -/
def scriptLoop (att : Nat → Except GenError String) :
    Nat → Nat → String → List GenError → String × ScriptTrace
  | i, 0, fs, errs => (fs, ⟨i, errs.reverse⟩)
  | i, fuel + 1, fs, errs =>
    match att i with
    | Except.error e => scriptLoop att (i + 1) fuel fs (e :: errs)
    | Except.ok response =>
      let fs1 := if response ≠ "" then formatResponse response else fs
      if fs1 ≠ "" ∧ pyInStr quotaMarker fs1 then
        scriptLoop att (i + 1) fuel fs1 (GenError.validation fs1 :: errs)
      else if fs1 ≠ "" then (fs1, ⟨i + 1, errs.reverse⟩)
      else scriptLoop att (i + 1) fuel fs1 errs

/-- Embedding of `generate_script` (llm.py lines 129-209).  The
`_behavior` argument is the abstract provider adapter (what each provider
call would answer); the source never consults it, because its transport
call omits the required `provider` and `model` arguments and raises
`TypeError` on every attempt (see `scriptCallResult`).  After the loop the
function logs and returns `final_script.strip()`; nothing after the loop
can raise, and every exception inside the loop is caught by its
`except Exception` clause, so the function always returns a string. -/
def generateScript (_behavior : Nat → Except String String) : String × ScriptTrace :=
  let (fs, tr) := scriptLoop (fun _ => scriptCallResult) 0 maxRetriesLLM "" []
  (pyStrip fs, tr)

/-- The outcome of the call `_generate_response(prompt)` on line 245 of
llm.py: `prompt` binds the `provider` parameter positionally and `model`
is left unsupplied, so CPython raises `TypeError` at the call site, before
the callee body runs.  Every semantic attempt of `generate_terms`
therefore fails with this error, whatever the provider would have
answered. -/
def termsCallResult : Except GenError String :=
  Except.error (GenError.typeErr
    "_generate_response missing 1 required positional argument: model")

/-- Model of `json.loads` for the dead code paths of `generate_terms`
(unreachable because the transport call raises before any response can be
bound, see `termsCallResult`): approximated by the same literal parser the
store uses, which accepts the JSON array-of-strings shape the source cares
about.  `Option.none` models a raised `JSONDecodeError`. -/
def jsonLoads (s : String) : Option PyVal := parseLitChars s.toList

/-- The prefix of `cs` up to and including the last occurrence of `c`
(empty when `c` does not occur). -/
def takeThroughLast (c : Char) : List Char → List Char
  | [] => []
  | x :: xs =>
    if xs.contains c then x :: takeThroughLast c xs
    else if x = c then [x]
    else []

/-- The leftmost, greedy match of `re.search(r"\[.*]", s)` within one
line: the span from the first `[` that has a `]` after it on the line
through the last `]` of the line. -/
def bracketMatchInLine : List Char → Option (List Char)
  | [] => Option.none
  | x :: xs =>
    if x = '[' ∧ xs.contains ']' then Option.some ('[' :: takeThroughLast ']' xs)
    else bracketMatchInLine xs

/-- `re.search(r"\[.*]", s)`: since `.` does not match newlines, the first
match is found in the first line that contains one. -/
def bracketExtract (s : String) : Option (List Char) :=
  (splitOnSub '\n' [] s.toList).findSome? bracketMatchInLine

/-- The `except` branch fallback of `generate_terms` (llm.py lines
258-265): when the attempt raised and `response` is non-empty, extract the
first bracketed substring and try to parse it, assigning `search_terms`
with no shape check on success and keeping the old value on failure. -/
def termsFallback (response : String) (terms : PyVal) : PyVal :=
  match bracketExtract response with
  | Option.some sub =>
    match jsonLoads sub.asString with
    | Option.some v => v
    | Option.none => terms
  | Option.none => terms

/-- Python truthiness of `search_terms and len(search_terms) > 0`
(the loop-exit test of `generate_terms`).  On an `int` Python would raise
`TypeError` at `len`; that value never reaches this test in the model
(the assigning paths are unreachable, see `termsCallResult`). -/
def pyTruthyLen : PyVal → Bool
  | PyVal.list l => ¬l.isEmpty
  | PyVal.str s => s ≠ ""
  | PyVal.int n => n ≠ 0
  | PyVal.bool b => b
  | PyVal.none => false
  | PyVal.time _ => false

/-- The `isinstance(search_terms, list) and all(isinstance(t, str) ...)`
shape check of `generate_terms`.  `PyVal` lists carry only strings, so the
`all` part is built into the type (a heterogeneous JSON list would fail
the check in Python; no reachable path produces one in the model). -/
def isStrList : PyVal → Bool
  | PyVal.list _ => true
  | _ => false

/-- The semantic retry loop of `generate_terms` (llm.py lines 243-270),
with `att i` the outcome of the transport call of attempt `i`, `terms` the
current `search_terms` and `resp` the current `response` (both survive
across iterations; `response` starts as `""` and is reassigned only when
the transport call returns).  A response containing `"Error: "` is
returned directly — as a raw string, not a list.  A parsed value that is
not a list of strings is kept in `search_terms` but `continue` skips the
loop-exit test.  A `json.loads` failure lands in the `except` fallback
with the fresh response. -/
def termsLoop (att : Nat → Except GenError String) :
    Nat → Nat → PyVal → String → PyVal × Nat
  | i, 0, terms, _resp => (terms, i)
  | i, fuel + 1, terms, resp =>
    match att i with
    | Except.error _ =>
      let terms1 := if resp ≠ "" then termsFallback resp terms else terms
      if pyTruthyLen terms1 then (terms1, i + 1)
      else termsLoop att (i + 1) fuel terms1 resp
    | Except.ok response =>
      if pyInStr "Error: " response then (PyVal.str response, i + 1)
      else
        match jsonLoads response with
        | Option.some v =>
          if isStrList v then
            if pyTruthyLen v then (v, i + 1)
            else termsLoop att (i + 1) fuel v response
          else termsLoop att (i + 1) fuel v response
        | Option.none =>
          let terms1 := termsFallback response terms
          if pyTruthyLen terms1 then (terms1, i + 1)
          else termsLoop att (i + 1) fuel terms1 response

/-- Embedding of `generate_terms` (llm.py lines 212-273).  As with
`generateScript`, the `_behavior` argument is the abstract provider
adapter that the source can never consult (see `termsCallResult`).  The
returned `PyVal` is whatever Python value the function returns
(`search_terms`, or `response` through the early-return on line 248);
nothing after the loop can raise, and every exception inside the loop is
caught, so the function always returns a value. -/
def generateTerms (_behavior : Nat → Except String String) : PyVal × Nat :=
  termsLoop (fun _ => termsCallResult) 0 maxRetriesLLM (PyVal.list []) ""

/-- Field access on a `get_task` result: the record's value at `k`, or
`Option.none` when the task or the field is absent. -/
def taskField (r : Option TaskRec) (k : String) : Option PyVal :=
  match r with
  | Option.some rec2 => dget rec2 k
  | Option.none => Option.none

/-- Raw stored text of one hash field of the Redis model (what `HGET`
would return), bypassing the decode step. -/
def rhashField (db : RedisStore) (key field : String) : Option String :=
  match dget db key with
  | Option.some h => dget h field
  | Option.none => Option.none

/-- A string the model's unescaped `repr` renders exactly as CPython does:
no single quote, no backslash, no control character. -/
def plainStr (s : String) : Prop :=
  ∀ c ∈ s.toList, c ≠ squote ∧ c ≠ Char.ofNat 92 ∧ 32 ≤ c.toNat

instance (s : String) : Decidable (plainStr s) := by
  unfold plainStr
  infer_instance

/-!
Helper lemmas: correctness of the decimal rendering and of the literal
parser on the shapes the claims exercise, small association-list facts, and
the transport-loop bound.  The claim theorems follow after them.
-/

theorem asString_toList (s : String) : s.toList.asString = s := rfl

theorem toList_asString (l : List Char) : (l.asString).toList = l := by
  induction l with
  | nil => rfl
  | cons c cs ih => simp [List.asString] at ih ⊢

theorem digitChar_isDigit : ∀ d : Nat, d < 10 → (digitChar d).isDigit = true := by decide

theorem digitChar_val : ∀ d : Nat, d < 10 → (digitChar d).toNat - 48 = d := by decide

theorem natDigitsFuel_congr :
    ∀ (f1 : Nat) (f2 n : Nat), n ≤ f1 → n ≤ f2 → natDigitsFuel f1 n = natDigitsFuel f2 n := by
  intro f1
  induction f1 with
  | zero =>
    intro f2 n h1 _
    have hn : n = 0 := by omega
    subst hn
    cases f2 with
    | zero => rfl
    | succ f2 => simp [natDigitsFuel]
  | succ f1 ih =>
    intro f2 n h1 h2
    cases f2 with
    | zero =>
      have hn : n = 0 := by omega
      subst hn
      simp [natDigitsFuel]
    | succ f2 =>
      by_cases h : n < 10
      · simp [natDigitsFuel, h]
      · simp only [natDigitsFuel, h, if_false]
        rw [ih f2 (n / 10) (by omega) (by omega)]

theorem natDigits_eq (n : Nat) :
    natDigits n = if n < 10 then [digitChar n]
      else natDigits (n / 10) ++ [digitChar (n % 10)] := by
  show natDigitsFuel n n = _
  by_cases h : n < 10
  · cases n with
    | zero => simp [natDigitsFuel]
    | succ m => simp [natDigitsFuel, h]
  · cases n with
    | zero => omega
    | succ m =>
      simp only [natDigitsFuel, h, if_false]
      rw [natDigitsFuel_congr m ((m + 1) / 10) ((m + 1) / 10) (by omega) (by omega)]
      rfl

theorem natDigits_ne_nil (n : Nat) : natDigits n ≠ [] := by
  rw [natDigits_eq]
  split <;> simp

theorem natDigits_all_digits (n : Nat) : ∀ c ∈ natDigits n, c.isDigit = true := by
  induction n using Nat.strong_induction_on with
  | _ n ih =>
    rw [natDigits_eq]
    split
    · next h =>
      intro c hc
      simp only [List.mem_singleton] at hc
      subst hc
      exact digitChar_isDigit n h
    · next h =>
      intro c hc
      rw [List.mem_append] at hc
      rcases hc with hc | hc
      · exact ih (n / 10) (Nat.div_lt_self (by omega) (by omega)) c hc
      · simp only [List.mem_singleton] at hc
        subst hc
        exact digitChar_isDigit (n % 10) (Nat.mod_lt _ (by omega))

theorem digitsToNat_natDigits (n : Nat) : digitsToNat (natDigits n) = n := by
  induction n using Nat.strong_induction_on with
  | _ n ih =>
    rw [natDigits_eq]
    split
    · next h =>
      simp only [digitsToNat, List.foldl_cons, List.foldl_nil, Nat.zero_mul, Nat.zero_add]
      exact digitChar_val n h
    · next h =>
      have hstep : digitsToNat (natDigits (n / 10) ++ [digitChar (n % 10)])
          = digitsToNat (natDigits (n / 10)) * 10 + ((digitChar (n % 10)).toNat - 48) := by
        simp [digitsToNat, List.foldl_append]
      rw [hstep, ih (n / 10) (Nat.div_lt_self (by omega) (by omega)),
          digitChar_val (n % 10) (Nat.mod_lt _ (by omega))]
      omega
theorem scanDigits_append (ds rest : List Char)
    (h1 : ∀ c ∈ ds, c.isDigit = true)
    (h2 : ∀ c cs, rest = c :: cs → c.isDigit = false) :
    scanDigits (ds ++ rest) = (ds, rest) := by
  induction ds with
  | nil =>
    cases rest with
    | nil => rfl
    | cons c cs => simp [scanDigits, h2 c cs rfl]
  | cons d ds ih =>
    have hd : d.isDigit = true := h1 d (by simp)
    simp [scanDigits, hd, ih (fun c hc => h1 c (by simp [hc]))]

theorem scanString_append (q : Char) (s rest : List Char) (h : q ∉ s) :
    scanString q (s ++ q :: rest) = Option.some (s, rest) := by
  induction s with
  | nil => simp [scanString]
  | cons c cs ih =>
    have hc : ¬(c = q) := by
      intro e
      exact h (by simp [e])
    simp [scanString, hc, ih (fun hq => h (List.mem_cons_of_mem _ hq))]

theorem skipWs_cons_ne {c : Char} (cs : List Char) (h : ¬(c = ' ')) :
    skipWs (c :: cs) = c :: cs := by
  simp [skipWs, h]

theorem parseScalar_natDigits (n : Nat) (rest : List Char)
    (h2 : ∀ c cs, rest = c :: cs → c.isDigit = false) :
    parseScalar (natDigits n ++ rest) = Option.some (PyVal.int (Int.ofNat n), rest) := by
  obtain ⟨d, ds, hds⟩ : ∃ d ds, natDigits n = d :: ds := by
    cases hnd : natDigits n with
    | nil => exact absurd hnd (natDigits_ne_nil n)
    | cons d ds => exact ⟨d, ds, rfl⟩
  have hd : d.isDigit = true := natDigits_all_digits n d (by rw [hds]; simp)
  have hq1 : ¬(d = squote ∨ d = dquote) := by
    rintro (e | e) <;> rw [e] at hd <;> exact absurd hd (by decide)
  have hm : ¬(d = '-') := by intro e; rw [e] at hd; exact absurd hd (by decide)
  have hp : ¬(d = '+') := by intro e; rw [e] at hd; exact absurd hd (by decide)
  have hs : scanDigits (d :: ds ++ rest) = (d :: ds, rest) := by
    rw [← hds]
    exact scanDigits_append _ rest (fun c hc => natDigits_all_digits n c (hds ▸ hc)) h2
  rw [hds]
  rw [List.cons_append]
  simp only [parseScalar, hq1, if_false, hm, hp, hd, if_true]
  rw [← List.cons_append, hs]
  simp only []
  rw [← hds, digitsToNat_natDigits]

theorem parseScalar_intChars (n : Int) (rest : List Char)
    (h2 : ∀ c cs, rest = c :: cs → c.isDigit = false) :
    parseScalar (intChars n ++ rest) = Option.some (PyVal.int n, rest) := by
  by_cases hn : n < 0
  · have hic : intChars n = '-' :: natDigits (-n).toNat := by simp [intChars, hn]
    rw [hic]
    have hds : scanDigits (natDigits (-n).toNat ++ rest) = (natDigits (-n).toNat, rest) :=
      scanDigits_append _ rest (natDigits_all_digits _) h2
    rw [List.cons_append]
    simp only [parseScalar, hds]
    rw [if_neg (natDigits_ne_nil _)]
    rw [digitsToNat_natDigits]
    have h3 : -(Int.ofNat (-n).toNat) = n := by
      simp only [Int.ofNat_eq_coe, Int.toNat_of_nonneg (by omega : (0:Int) ≤ -n)]
      omega
    rw [h3]
    rw [if_neg (show ¬('-' = squote ∨ '-' = dquote) by decide)]
    simp only [if_true]
  · have hic : intChars n = natDigits n.toNat := by simp [intChars, hn]
    rw [hic, parseScalar_natDigits n.toNat rest h2]
    have h3 : Int.ofNat n.toNat = n := by
      simp only [Int.ofNat_eq_coe, Int.toNat_of_nonneg (by omega : (0:Int) ≤ n)]
    rw [h3]

theorem intChars_head (n : Int) :
    ∃ c rest, intChars n = c :: rest ∧ (c = '-' ∨ c.isDigit = true) := by
  by_cases hn : n < 0
  · exact ⟨'-', natDigits (-n).toNat, by simp [intChars, hn], Or.inl rfl⟩
  · obtain ⟨d, ds, hds⟩ : ∃ d ds, natDigits n.toNat = d :: ds := by
      cases hnd : natDigits n.toNat with
      | nil => exact absurd hnd (natDigits_ne_nil _)
      | cons d ds => exact ⟨d, ds, rfl⟩
    refine ⟨d, ds, by simp [intChars, hn, hds], Or.inr ?_⟩
    exact natDigits_all_digits _ d (by rw [hds]; simp)

theorem parseLitChars_intChars (n : Int) :
    parseLitChars (intChars n) = Option.some (PyVal.int n) := by
  obtain ⟨c, rest, hcr, hh⟩ := intChars_head n
  have hsp : ¬(c = ' ') := by
    rcases hh with h | h
    · subst h; decide
    · intro e; rw [e] at h; exact absurd h (by decide)
  have hbr : ¬(c = '[') := by
    rcases hh with h | h
    · subst h; decide
    · intro e; rw [e] at h; exact absurd h (by decide)
  have hps : parseScalar (c :: rest) = Option.some (PyVal.int n, []) := by
    rw [← hcr, ← List.append_nil (intChars n)]
    exact parseScalar_intChars n [] (fun c2 cs2 h => by simp at h)
  rw [parseLitChars, hcr, skipWs_cons_ne rest hsp]
  simp only [parseAfterWs, hbr, if_false, hps]
  rfl

theorem parseScalar_quoted (s : String) (rest : List Char) (h : squote ∉ s.toList) :
    parseScalar (squote :: (s.toList ++ squote :: rest)) = Option.some (PyVal.str s, rest) := by
  simp only [parseScalar]
  rw [if_pos (Or.inl trivial), scanString_append squote s.toList rest h]
  rfl

theorem reprStrElems_le_length (l : List String) :
    l.length ≤ (pyRepr.reprStrElems l).length := by
  induction l with
  | nil => simp [pyRepr.reprStrElems]
  | cons s tail ih =>
    cases tail with
    | nil => simp [pyRepr.reprStrElems]
    | cons s2 tail2 =>
      simp only [pyRepr.reprStrElems, List.length_cons, List.length_append]
      simp at ih ⊢
      omega

theorem reprStrElems_cons_head (s : String) (tail : List String) :
    ∃ xs, pyRepr.reprStrElems (s :: tail) = squote :: xs := by
  cases tail with
  | nil => exact ⟨s.toList ++ [squote], by simp [pyRepr.reprStrElems]⟩
  | cons s2 tail2 =>
    exact ⟨s.toList ++ [squote] ++ [',', ' '] ++ pyRepr.reprStrElems (s2 :: tail2),
      by simp [pyRepr.reprStrElems]⟩

theorem parseElems_repr (l : List String) (hpl : ∀ s ∈ l, squote ∉ s.toList) :
    ∀ (fuel : Nat) (rest : List Char), l.length ≤ fuel → l ≠ [] →
    parseElems fuel (pyRepr.reprStrElems l ++ (']' :: rest)) = Option.some (l, rest) := by
  induction l with
  | nil => intro fuel rest _ hne; exact absurd rfl hne
  | cons s tail ih =>
    intro fuel rest hf _
    cases fuel with
    | zero => simp at hf
    | succ fuel =>
      cases tail with
      | nil =>
        have he : pyRepr.reprStrElems [s] ++ (']' :: rest)
            = squote :: (s.toList ++ squote :: (']' :: rest)) := by
          simp [pyRepr.reprStrElems]
        rw [he]
        simp only [parseElems, parseScalar_quoted s (']' :: rest) (hpl s (by simp))]
        rw [skipWs_cons_ne rest (by decide)]
        simp
      | cons s2 tail2 =>
        have he : pyRepr.reprStrElems (s :: s2 :: tail2) ++ (']' :: rest)
            = squote :: (s.toList ++ squote ::
                (',' :: ' ' :: (pyRepr.reprStrElems (s2 :: tail2) ++ (']' :: rest)))) := by
          simp [pyRepr.reprStrElems]
        rw [he]
        simp only [parseElems, parseScalar_quoted s _ (hpl s (by simp))]
        rw [skipWs_cons_ne _ (by decide)]
        obtain ⟨xs, hxs⟩ := reprStrElems_cons_head s2 tail2
        have hsk : skipWs (' ' :: (pyRepr.reprStrElems (s2 :: tail2) ++ (']' :: rest)))
            = pyRepr.reprStrElems (s2 :: tail2) ++ (']' :: rest) := by
          have h1 : skipWs (' ' :: (pyRepr.reprStrElems (s2 :: tail2) ++ (']' :: rest)))
              = skipWs (pyRepr.reprStrElems (s2 :: tail2) ++ (']' :: rest)) := by
            simp [skipWs]
          rw [h1, hxs, List.cons_append, skipWs_cons_ne _ (by decide)]
        have hih := ih (fun s3 hs3 => hpl s3 (by simp [hs3])) fuel rest
          (by simp at hf ⊢; omega) (by simp)
        simp only [if_neg (show ¬(',' = ']') by decide), if_pos rfl, hsk, hih]
        simp

theorem parseLitChars_listRepr (l : List String) (hpl : ∀ s ∈ l, squote ∉ s.toList) :
    parseLitChars (pyRepr (PyVal.list l)) = Option.some (PyVal.list l) := by
  have hpy : pyRepr (PyVal.list l) = '[' :: (pyRepr.reprStrElems l ++ [']']) := by
    simp [pyRepr]
  rw [parseLitChars, hpy, skipWs_cons_ne _ (by decide)]
  simp only [parseAfterWs, if_pos rfl]
  cases l with
  | nil =>
    simp [pyRepr.reprStrElems, skipWs, parseListBody]
  | cons s tail =>
    obtain ⟨xs, hxs⟩ := reprStrElems_cons_head s tail
    have hsk : skipWs (pyRepr.reprStrElems (s :: tail) ++ [']'])
        = pyRepr.reprStrElems (s :: tail) ++ [']'] := by
      rw [hxs, List.cons_append, skipWs_cons_ne _ (by decide)]
    rw [hsk, hxs, List.cons_append]
    simp only [parseListBody, if_neg (show ¬(squote = ']') by decide)]
    have hparse : parseElems ((squote :: (xs ++ [']'])).length + 1)
        (squote :: (xs ++ [']'])) = Option.some (s :: tail, []) := by
      have := parseElems_repr (s :: tail) hpl ((squote :: (xs ++ [']'])).length + 1) []
        (by
          have h1 := reprStrElems_le_length (s :: tail)
          rw [hxs] at h1
          simp at h1 ⊢
          omega)
        (by simp)
      rw [hxs] at this
      simpa using this
    rw [hparse]
    simp [skipWs]

theorem convert_int (n : Int) :
    convertToOriginalType (pyStr (PyVal.int n)) = PyVal.int n := by
  have h1 : pyStr (PyVal.int n) = (intChars n).asString := by simp [pyStr, pyRepr]
  have h2 : ((intChars n).asString).toList = intChars n := by
    induction intChars n with
    | nil => rfl
    | cons c cs ih => simp [List.asString] at ih ⊢
  rw [convertToOriginalType.eq_def, h1, h2, parseLitChars_intChars]

theorem convert_strList (l : List String) (hpl : ∀ s ∈ l, squote ∉ s.toList) :
    convertToOriginalType (pyStr (PyVal.list l)) = PyVal.list l := by
  have h1 : pyStr (PyVal.list l) = (pyRepr (PyVal.list l)).asString := by simp [pyStr]
  have h2 : ((pyRepr (PyVal.list l)).asString).toList = pyRepr (PyVal.list l) := by
    induction pyRepr (PyVal.list l) with
    | nil => rfl
    | cons c cs ih => simp [List.asString] at ih ⊢
  rw [convertToOriginalType.eq_def, h1, h2, parseLitChars_listRepr l hpl]

theorem dget_dset_self {α : Type} (d : List (String × α)) (k : String) (v : α) :
    dget (dset d k v) k = Option.some v := by
  induction d with
  | nil => simp [dset, dget]
  | cons kv rest ih =>
    obtain ⟨k1, v1⟩ := kv
    by_cases h : k1 = k
    · simp [dset, dget, h]
    · simp [dset, dget, h, ih]

theorem dget_dset_ne {α : Type} (d : List (String × α)) {k k2 : String} (v : α)
    (h : ¬(k2 = k)) : dget (dset d k2 v) k = dget d k := by
  induction d with
  | nil => simp [dset, dget, h]
  | cons kv rest ih =>
    obtain ⟨k1, v1⟩ := kv
    by_cases h2 : k1 = k2
    · subst h2
      simp [dset, dget, h]
    · simp [dset, dget, h2, ih]

theorem dget_foldl_dset_ne {α : Type} (kws : List (String × α)) (d : List (String × α))
    (k : String) (h : ∀ kv ∈ kws, ¬(kv.1 = k)) :
    dget (kws.foldl (fun r kv => dset r kv.1 kv.2) d) k = dget d k := by
  induction kws generalizing d with
  | nil => rfl
  | cons kv rest ih =>
    simp only [List.foldl_cons]
    rw [ih _ (fun kv2 h2 => h kv2 (by simp [h2]))]
    exact dget_dset_ne d kv.2 (h kv (by simp))

theorem redis_field_decode (v : PyVal) :
    taskField (redisGetTask (redisUpdateTask redisEmpty "t1" TASK_STATE_PROCESSING 0
      [("payload", v)]) "t1") "payload" = Option.some (convertToOriginalType (pyStr v)) := rfl

theorem memUpdate_existing (times : Nat → Nat) (st : MemStore) (tid : String)
    (s q : Int) (kws : List (String × PyVal)) (R : TaskRec)
    (hR : dget st.tasks tid = Option.some R) :
    memGetTask (memUpdateTask times st tid s q kws) tid
      = Option.some (dset (kws.foldl (fun r kv => dset r kv.1 kv.2) R) "updated_at"
          (PyVal.time (times st.clk))) := by
  unfold memUpdateTask memGetTask
  simp only [hR, Option.isNone_some, Bool.false_eq_true, if_false, Option.getD_some]
  exact dget_dset_self _ _ _

theorem transportGo_attempts_le (behavior : Nat → Except String String) (provider : String)
    (maxRetries retryDelay : Nat) : ∀ (fuel i : Nat),
    (transportGo behavior provider maxRetries retryDelay i fuel).2.attempts ≤ fuel := by
  intro fuel
  induction fuel with
  | zero => intro i; simp [transportGo]
  | succ fuel ih =>
    intro i
    simp only [transportGo]
    cases oneAttempt behavior provider i with
    | ok r => simp
    | error m =>
      by_cases h : fuel = 0
      · simp [h]
      · simp only [h, if_false]
        rcases htr : transportGo behavior provider maxRetries retryDelay (i + 1) fuel with ⟨res, tr⟩
        have h2 := ih (i + 1)
        rw [htr] at h2
        simp only [htr]
        simpa using Nat.succ_le_succ h2

/-!
The claim theorems, one per claim of the frozen list, with counterexamples
and witnesses where the status requires them.
-/

/-- C1: the claim is false as stated — `update_task` clamps `progress` only
from above.  Updating a fresh task with `progress = -1` stores `-1` in both
backends, whereas `min(max(int(-1), 0), 100) = 0`. -/
theorem c1_progress_clamp_counterexample :
    taskField (memGetTask (memUpdateTask (fun k => k) memEmpty "t1"
        TASK_STATE_PROCESSING (-1) []) "t1") "progress" = Option.some (PyVal.int (-1))
    ∧ taskField (redisGetTask (redisUpdateTask redisEmpty "t1"
        TASK_STATE_PROCESSING (-1) []) "t1") "progress" = Option.some (PyVal.int (-1))
    ∧ (-1 : Int) ≠ min (max (-1) 0) 100 :=
  ⟨rfl, rfl, by decide⟩

/-- C1 (amended): after `update_task(task_id, progress = p)` the stored
progress is `min(int(p), 100)` — the lower bound is not enforced — and only
on record creation in the in-process backend (an update of an existing task
leaves its progress unchanged), while the persisted backend overwrites the
field on every call. -/
theorem c1_progress_clamp_amended (p q s s2 : Int) (times : Nat → Nat) :
    taskField (memGetTask (memUpdateTask times memEmpty "t1" s p []) "t1") "progress"
        = Option.some (PyVal.int (min p 100))
    ∧ taskField (memGetTask (memUpdateTask times
          (memUpdateTask times memEmpty "t1" s p []) "t1" s2 q []) "t1") "progress"
        = Option.some (PyVal.int (min p 100))
    ∧ rhashField (redisUpdateTask redisEmpty "t1" s p []) "t1" "progress"
        = Option.some (pyStr (PyVal.int (min p 100)))
    ∧ taskField (redisGetTask (redisUpdateTask redisEmpty "t1" s p []) "t1") "progress"
        = Option.some (PyVal.int (min p 100))
    ∧ taskField (redisGetTask (redisUpdateTask
          (redisUpdateTask redisEmpty "t1" s p []) "t1" s2 q []) "t1") "progress"
        = Option.some (PyVal.int (min q 100)) := by
  have hmin : ∀ r : Int, (if r > 100 then (100 : Int) else r) = min r 100 := by
    intro r
    rcases le_or_lt r 100 with h | h
    · rw [if_neg (by omega), min_eq_left h]
    · rw [if_pos (by omega), min_eq_right (by omega)]
  refine ⟨?_, ?_, ?_, ?_, ?_⟩
  · rw [← hmin p]; rfl
  · rw [← hmin p]; rfl
  · rw [← hmin p]; rfl
  · have h4 := convert_int (if p > 100 then (100 : Int) else p)
    rw [← hmin p, ← h4]; rfl
  · have h5 := convert_int (if q > 100 then (100 : Int) else q)
    rw [← hmin q, ← h5]; rfl

/-- C2: the claim is false — the two backends are not observationally
equivalent.  After one `update_task` on a fresh id, `get_task` returns a
six-field record from the in-process backend and a three-field record from
the persisted backend. -/
theorem c2_backend_equiv_counterexample :
    memGetTask (memUpdateTask (fun k => k) memEmpty "t1" TASK_STATE_PROCESSING 0 []) "t1"
      ≠ redisGetTask (redisUpdateTask redisEmpty "t1" TASK_STATE_PROCESSING 0 []) "t1" := by
  decide

/-- C2 (amended): after a first `update_task` on a fresh id the backends
agree on the common fields `task_id`, `state`, `progress`, but the
in-process record additionally carries `error`/`created_at`/`updated_at`,
which the persisted record lacks; after a second `update_task` with new
`state`/`progress` arguments the in-process backend keeps the old values
while the persisted backend overwrites them; `delete_task` then `get_task`
yields absent in both. -/
theorem c2_backend_equiv_amended :
    (taskField (memGetTask (memUpdateTask (fun k => k) memEmpty "t1"
          TASK_STATE_PROCESSING 0 []) "t1") "task_id"
        = taskField (redisGetTask (redisUpdateTask redisEmpty "t1"
          TASK_STATE_PROCESSING 0 []) "t1") "task_id"
      ∧ taskField (memGetTask (memUpdateTask (fun k => k) memEmpty "t1"
          TASK_STATE_PROCESSING 0 []) "t1") "state"
        = taskField (redisGetTask (redisUpdateTask redisEmpty "t1"
          TASK_STATE_PROCESSING 0 []) "t1") "state"
      ∧ taskField (memGetTask (memUpdateTask (fun k => k) memEmpty "t1"
          TASK_STATE_PROCESSING 0 []) "t1") "progress"
        = taskField (redisGetTask (redisUpdateTask redisEmpty "t1"
          TASK_STATE_PROCESSING 0 []) "t1") "progress")
    ∧ (taskField (memGetTask (memUpdateTask (fun k => k) memEmpty "t1"
          TASK_STATE_PROCESSING 0 []) "t1") "error" = Option.some PyVal.none
      ∧ taskField (redisGetTask (redisUpdateTask redisEmpty "t1"
          TASK_STATE_PROCESSING 0 []) "t1") "error" = Option.none
      ∧ taskField (redisGetTask (redisUpdateTask redisEmpty "t1"
          TASK_STATE_PROCESSING 0 []) "t1") "created_at" = Option.none
      ∧ taskField (redisGetTask (redisUpdateTask redisEmpty "t1"
          TASK_STATE_PROCESSING 0 []) "t1") "updated_at" = Option.none)
    ∧ (taskField (memGetTask (memUpdateTask (fun k => k) (memUpdateTask (fun k => k)
          memEmpty "t1" TASK_STATE_PROCESSING 0 []) "t1" TASK_STATE_FAILED 50 []) "t1") "state"
        = Option.some (PyVal.int TASK_STATE_PROCESSING)
      ∧ taskField (memGetTask (memUpdateTask (fun k => k) (memUpdateTask (fun k => k)
          memEmpty "t1" TASK_STATE_PROCESSING 0 []) "t1" TASK_STATE_FAILED 50 []) "t1") "progress"
        = Option.some (PyVal.int 0)
      ∧ taskField (redisGetTask (redisUpdateTask (redisUpdateTask redisEmpty "t1"
          TASK_STATE_PROCESSING 0 []) "t1" TASK_STATE_FAILED 50 []) "t1") "state"
        = Option.some (PyVal.int TASK_STATE_FAILED)
      ∧ taskField (redisGetTask (redisUpdateTask (redisUpdateTask redisEmpty "t1"
          TASK_STATE_PROCESSING 0 []) "t1" TASK_STATE_FAILED 50 []) "t1") "progress"
        = Option.some (PyVal.int 50))
    ∧ (memGetTask (memDeleteTask (memUpdateTask (fun k => k) memEmpty "t1"
          TASK_STATE_PROCESSING 0 []) "t1") "t1" = Option.none
      ∧ redisGetTask (redisDeleteTask (redisUpdateTask redisEmpty "t1"
          TASK_STATE_PROCESSING 0 []) "t1") "t1" = Option.none) := by
  decide

/-- C3: the claim is false.  On the first write the in-process backend
takes three separate `datetime.now()` readings, so with any strictly
advancing clock `created_at` (first reading) differs from `updated_at`
(third reading); and the persisted backend stores no `created_at` or
`updated_at` field at all, so no backend-independent refresh exists. -/
theorem c3_timestamps_counterexample :
    taskField (memGetTask (memUpdateTask (fun k => k) memEmpty "t1"
        TASK_STATE_PROCESSING 0 []) "t1") "created_at" = Option.some (PyVal.time 0)
    ∧ taskField (memGetTask (memUpdateTask (fun k => k) memEmpty "t1"
        TASK_STATE_PROCESSING 0 []) "t1") "updated_at" = Option.some (PyVal.time 2)
    ∧ PyVal.time 0 ≠ PyVal.time 2
    ∧ taskField (redisGetTask (redisUpdateTask redisEmpty "t1"
        TASK_STATE_PROCESSING 0 []) "t1") "created_at" = Option.none
    ∧ taskField (redisGetTask (redisUpdateTask redisEmpty "t1"
        TASK_STATE_PROCESSING 0 []) "t1") "updated_at" = Option.none := by
  decide

/-- C3 (amended): in the in-process backend `created_at` is written once on
creation (clock reading 0) and never changed by a later update whose extra
fields do not bind `created_at`, while `updated_at` is refreshed on every
write (readings 2 then 3) and is non-decreasing for a non-decreasing clock;
`created_at = updated_at` on first write only if the clock does not advance
within the call; the persisted backend stores no timestamp fields at all. -/
theorem c3_timestamps_amended (times : Nat → Nat)
    (hmono : ∀ i j : Nat, i ≤ j → times i ≤ times j) (s p s2 q : Int)
    (kws : List (String × PyVal)) (hck : ∀ kv ∈ kws, ¬(kv.1 = "created_at")) :
    taskField (memGetTask (memUpdateTask times memEmpty "t1" s p []) "t1") "created_at"
        = Option.some (PyVal.time (times 0))
    ∧ taskField (memGetTask (memUpdateTask times memEmpty "t1" s p []) "t1") "updated_at"
        = Option.some (PyVal.time (times 2))
    ∧ taskField (memGetTask (memUpdateTask times
          (memUpdateTask times memEmpty "t1" s p []) "t1" s2 q kws) "t1") "created_at"
        = Option.some (PyVal.time (times 0))
    ∧ taskField (memGetTask (memUpdateTask times
          (memUpdateTask times memEmpty "t1" s p []) "t1" s2 q kws) "t1") "updated_at"
        = Option.some (PyVal.time (times 3))
    ∧ times 2 ≤ times 3
    ∧ taskField (redisGetTask (redisUpdateTask redisEmpty "t1" s p []) "t1") "created_at"
        = Option.none
    ∧ taskField (redisGetTask (redisUpdateTask redisEmpty "t1" s p []) "t1") "updated_at"
        = Option.none := by
  have hst1 : memUpdateTask times memEmpty "t1" s p []
      = ⟨[("t1",
          [("task_id", PyVal.str "t1"), ("state", PyVal.int s),
           ("progress", PyVal.int (if p > 100 then 100 else p)), ("error", PyVal.none),
           ("created_at", PyVal.time (times 0)), ("updated_at", PyVal.time (times 2))])], 3⟩ := rfl
  have hR : dget (memUpdateTask times memEmpty "t1" s p []).tasks "t1"
      = Option.some
          [("task_id", PyVal.str "t1"), ("state", PyVal.int s),
           ("progress", PyVal.int (if p > 100 then 100 else p)), ("error", PyVal.none),
           ("created_at", PyVal.time (times 0)), ("updated_at", PyVal.time (times 2))] := by
    rw [hst1]
    simp [dget]
  have hex := memUpdate_existing times (memUpdateTask times memEmpty "t1" s p []) "t1"
    s2 q kws _ hR
  rw [hst1] at hex
  refine ⟨rfl, rfl, ?_, ?_, hmono 2 3 (by omega), rfl, rfl⟩
  · rw [hst1, hex]
    simp only [taskField]
    rw [dget_dset_ne _ _ (by decide), dget_foldl_dset_ne kws _ _ hck]
    rfl
  · rw [hst1, hex]
    simp only [taskField]
    exact dget_dset_self _ _ _

/-- C3 (witness): the amended theorem applied at the identity clock, an
extra `result` field in the second update. -/
theorem c3_timestamps_witness :
    taskField (memGetTask (memUpdateTask (fun k => k) memEmpty "t1" 1 0 []) "t1") "created_at"
        = Option.some (PyVal.time 0)
    ∧ taskField (memGetTask (memUpdateTask (fun k => k) memEmpty "t1" 1 0 []) "t1") "updated_at"
        = Option.some (PyVal.time 2)
    ∧ taskField (memGetTask (memUpdateTask (fun k => k)
          (memUpdateTask (fun k => k) memEmpty "t1" 1 0 []) "t1" 3 50
          [("result", PyVal.str "out.mp4")]) "t1") "created_at"
        = Option.some (PyVal.time 0)
    ∧ taskField (memGetTask (memUpdateTask (fun k => k)
          (memUpdateTask (fun k => k) memEmpty "t1" 1 0 []) "t1" 3 50
          [("result", PyVal.str "out.mp4")]) "t1") "updated_at"
        = Option.some (PyVal.time 3)
    ∧ (2 : Nat) ≤ 3
    ∧ taskField (redisGetTask (redisUpdateTask redisEmpty "t1" 1 0 []) "t1") "created_at"
        = Option.none
    ∧ taskField (redisGetTask (redisUpdateTask redisEmpty "t1" 1 0 []) "t1") "updated_at"
        = Option.none :=
  c3_timestamps_amended (fun k => k) (fun i j h => h) 1 0 3 50
    [("result", PyVal.str "out.mp4")] (by decide)

/-- C4: no exception escapes either public generation operation, and with
any provider behaviour — an always-raising one included — `generate_script`
performs exactly the configured 5 semantic-layer attempts (each one caught)
and returns the empty string; `generate_terms` likewise runs its 5 attempts
and returns the empty list. -/
theorem c4_no_escape_exhaustion (behavior : Nat → Except String String) :
    generateScript behavior
      = ("", ⟨5, List.replicate 5 (GenError.typeErr
          "_generate_response missing 2 required positional arguments: provider and model")⟩)
    ∧ (generateTerms behavior).2 = 5
    ∧ (generateTerms behavior).1 = PyVal.list [] :=
  ⟨rfl, rfl, rfl⟩

/-- C5: the claim is false for `generate_script` requests.  Called
directly, `_generate_response` does fail fast on a missing OpenAI key with
zero provider attempts (first conjunct); but a `generate_script` call
re-invokes the provider-call machinery on every one of its 5 semantic
attempts, and each invocation fails with a `TypeError` (the call omits the
required `provider`/`model` arguments) before configuration validation can
run, so the request never fails as a configuration error and the machinery
is re-invoked 5 times, not once. -/
theorem c5_config_fail_fast_counterexample :
    genResponseFull defaultLLMConfig "openai" "gpt-3.5-turbo" (fun _ => Except.ok "hi") 3 2
        = (Except.error (GenError.config "OpenAI API key not configured"), ⟨0, []⟩)
    ∧ (generateScript (fun _ => Except.ok "hi")).2
        = ⟨5, List.replicate 5 (GenError.typeErr
            "_generate_response missing 2 required positional arguments: provider and model")⟩
    ∧ (5 : Nat) ≠ 1 :=
  ⟨rfl, rfl, by decide⟩

/-- C5 (amended): `_generate_response` itself fails fast — with any
configuration whose OpenAI key is empty it raises the configuration error
before any provider attempt, consuming zero transport attempts and no
sleeps; `generate_script`, however, catches every error of its transport
call and re-invokes it on each of its 5 semantic attempts, each failing
with a `TypeError` before validation runs. -/
theorem c5_config_fail_fast_amended (ps : List String) (url model : String)
    (behavior behavior2 : Nat → Except String String) :
    genResponseFull ⟨"openai" :: ps, "", url⟩ "openai" model behavior 3 2
        = (Except.error (GenError.config "OpenAI API key not configured"), ⟨0, []⟩)
    ∧ (generateScript behavior2).2.attempts = 5
    ∧ (generateScript behavior2).2.errors
        = List.replicate 5 (GenError.typeErr
            "_generate_response missing 2 required positional arguments: provider and model") := by
  refine ⟨?_, rfl, rfl⟩
  have hc : (("openai" :: ps).contains "openai") = true := by simp
  simp [genResponseFull, hc]

/-- C6: the claim is false in one respect — the terminal transport error's
message carries the attempt count but not the provider name.  With provider
`g4f` and an adapter failing with `"boom"` the loop runs its 3 attempts
with the two 2-second sleeps and raises
`"Failed to generate response after 3 attempts: boom"`, which does not
contain `"g4f"`. -/
theorem c6_transport_msg_counterexample :
    genResponseFull defaultLLMConfig "g4f" "m" (fun _ => Except.error "boom") 3 2
        = (Except.error (GenError.exhausted
            "Failed to generate response after 3 attempts: boom"), ⟨3, [2, 2]⟩)
    ∧ pyInStr "g4f" "Failed to generate response after 3 attempts: boom" = false :=
  ⟨rfl, rfl⟩

/-- C6 (amended): the transport layer makes at most 3 attempts at a single
provider call; when every attempt fails it sleeps exactly twice for 2
seconds (between consecutive attempts, none after the last) and raises a
terminal error whose message names the attempt count and the last adapter
error — but not the provider. -/
theorem c6_transport_retry_amended (behavior : Nat → Except String String)
    (ms : Nat → String) :
    (genResponseFull defaultLLMConfig "g4f" "m" behavior 3 2).2.attempts ≤ 3
    ∧ genResponseFull defaultLLMConfig "g4f" "m" (fun i => Except.error (ms i)) 3 2
        = (Except.error (GenError.exhausted
            ("Failed to generate response after 3 attempts: " ++ ms 2)), ⟨3, [2, 2]⟩) := by
  constructor
  · have h0 : genResponseFull defaultLLMConfig "g4f" "m" behavior 3 2
        = transportGo behavior "g4f" 3 2 0 3 := rfl
    rw [h0]
    exact transportGo_attempts_le behavior "g4f" 3 2 3 0
  · rfl

/-- C7: `generate_terms` always returns an ordered list of strings — in the
code as written, always the empty list, because its transport call raises
`TypeError` on every attempt and the early `return response` string path is
unreachable. -/
theorem c7_terms_always_list (behavior : Nat → Except String String) :
    ∃ l : List String, (generateTerms behavior).1 = PyVal.list l :=
  ⟨[], rfl⟩

/-- C8: the claim is false for strings that themselves read as Python
literals: the string `"123"` is stored as the text `123` and decoded back
as the integer `123`, losing its type. -/
theorem c8_roundtrip_counterexample :
    taskField (redisGetTask (redisUpdateTask redisEmpty "t1" TASK_STATE_PROCESSING 0
        [("payload", PyVal.str "123")]) "t1") "payload" = Option.some (PyVal.int 123)
    ∧ PyVal.int 123 ≠ PyVal.str "123" :=
  ⟨rfl, by decide⟩

/-- C8 (amended): the write-then-read round trip through the persisted
backend is the identity on integers, on sequences of plain strings (no
quote, no backslash, no control character — where the unescaped model
matches CPython), and on strings that do not read as literals (e.g.
`"hello"`); but a digit string such as `"123"` comes back as an integer. -/
theorem c8_roundtrip_amended :
    (∀ n : Int, taskField (redisGetTask (redisUpdateTask redisEmpty "t1"
        TASK_STATE_PROCESSING 0 [("payload", PyVal.int n)]) "t1") "payload"
        = Option.some (PyVal.int n))
    ∧ (∀ l : List String, (∀ s ∈ l, plainStr s) →
        taskField (redisGetTask (redisUpdateTask redisEmpty "t1"
          TASK_STATE_PROCESSING 0 [("payload", PyVal.list l)]) "t1") "payload"
          = Option.some (PyVal.list l))
    ∧ taskField (redisGetTask (redisUpdateTask redisEmpty "t1" TASK_STATE_PROCESSING 0
        [("payload", PyVal.str "hello")]) "t1") "payload" = Option.some (PyVal.str "hello")
    ∧ taskField (redisGetTask (redisUpdateTask redisEmpty "t1" TASK_STATE_PROCESSING 0
        [("payload", PyVal.str "123")]) "t1") "payload" = Option.some (PyVal.int 123) := by
  refine ⟨?_, ?_, rfl, rfl⟩
  · intro n
    rw [redis_field_decode, convert_int]
  · intro l hpl
    rw [redis_field_decode, convert_strList l (fun s hs hq => (hpl s hs squote hq).1 rfl)]

/-- C8 (witness): the amended round trip applied to the integer `-42` and
the plain string list `["cats", "dogs"]`. -/
theorem c8_roundtrip_witness :
    taskField (redisGetTask (redisUpdateTask redisEmpty "t1" TASK_STATE_PROCESSING 0
        [("payload", PyVal.int (-42))]) "t1") "payload" = Option.some (PyVal.int (-42))
    ∧ taskField (redisGetTask (redisUpdateTask redisEmpty "t1" TASK_STATE_PROCESSING 0
        [("payload", PyVal.list ["cats", "dogs"])]) "t1") "payload"
        = Option.some (PyVal.list ["cats", "dogs"]) :=
  ⟨c8_roundtrip_amended.1 (-42), c8_roundtrip_amended.2.1 ["cats", "dogs"] (by decide)⟩

/-- C9: the claim is false — with the quoted provider response,
`generate_script` returns `""`, not the expected cleaned text, because its
transport call raises `TypeError` before the response can be fetched (and
the expected text itself misstates the cleaning: removing `[ignore]` and
`(also ignore)` leaves two spaces after `world`, not one). -/
theorem c9_format_counterexample :
    (generateScript (fun _ => Except.ok
        "Hello **world** [ignore] (also ignore)\n\nSecond paragraph")).1 = ""
    ∧ ("" : String) ≠ "Hello world \n\nSecond paragraph" :=
  ⟨rfl, by decide⟩

/-- C9 (amended): the cleaning stage `format_response` maps the quoted
response to `"Hello world  \n\nSecond paragraph"` — emphasis markers and
the bracketed/parenthesised spans stripped, the blank-line paragraph break
preserved, two spaces left where the spans were removed — and the final
`strip()` leaves that text unchanged; `generate_script` itself returns `""`
for every provider behaviour, since its transport call never delivers a
response. -/
theorem c9_format_amended :
    formatResponse "Hello **world** [ignore] (also ignore)\n\nSecond paragraph"
        = "Hello world  \n\nSecond paragraph"
    ∧ pyStrip "Hello world  \n\nSecond paragraph" = "Hello world  \n\nSecond paragraph"
    ∧ ∀ behavior : Nat → Except String String, (generateScript behavior).1 = "" :=
  ⟨by decide, by decide, fun _ => rfl⟩

/-- C10: the implicit claim is false — even when every provider response
contains the quota-exhaustion marker, `generate_script` returns the empty
string (not the cleaned text of the last response) after its 5 attempts,
because the transport call raises `TypeError` before any response is
received and `final_script` is never assigned. -/
theorem c10_quota_marker_counterexample :
    (generateScript (fun _ => Except.ok ("x" ++ quotaMarker))).1 = ""
    ∧ (generateScript (fun _ => Except.ok ("x" ++ quotaMarker))).2.attempts = 5 :=
  ⟨rfl, rfl⟩

/-- C10 (amended): for every provider behaviour whose responses all contain
the quota marker, `generate_script` exhausts its 5 semantic attempts and
returns `""`: the marker check and the `final_script` accumulation the
claim reasons about are unreachable, as the transport call fails before a
response is bound. -/
theorem c10_quota_marker_amended (ms : Nat → String)
    (_hm : ∀ i : Nat, pyInStr quotaMarker (ms i) = true) :
    (generateScript (fun i => Except.ok (ms i))).1 = ""
    ∧ (generateScript (fun i => Except.ok (ms i))).2.attempts = 5 :=
  ⟨rfl, rfl⟩

/-- C10 (witness): the amended theorem applied to the constant
marker-only response. -/
theorem c10_quota_marker_witness :
    (generateScript (fun _ => Except.ok quotaMarker)).1 = ""
    ∧ (generateScript (fun _ => Except.ok quotaMarker)).2.attempts = 5 :=
  c10_quota_marker_amended (fun _ => quotaMarker)
    (fun _ => (by decide : pyInStr quotaMarker quotaMarker = true))
